import Mathlib

-- Verification of the RedditInsight analytics pipeline (reddit_analyzer.py).
-- The analytics functions are embedded shallowly: Python dicts with a fixed key
-- set become structures, dict keys that are absent on some code path become
-- Option fields, a dict KeyError becomes Except.error, the injected sentiment
-- scorer (TextBlob) and the fetch calls become capability functions returning
-- Except, floats become rationals, and the host timezone used by
-- datetime.fromtimestamp becomes an explicit offset parameter (seconds).

-- ===== Data model =====

-- One record of posts_data as built in _get_user_content.
structure PostItem where
  id : String
  title : String
  text : String
  score : Int
  created_utc : Int
  subreddit : String
  num_comments : Int
  url : String
deriving DecidableEq

-- One record of comments_data as built in _get_user_content.
structure CommentItem where
  id : String
  text : String
  score : Int
  created_utc : Int
  subreddit : String
  parent_id : String
deriving DecidableEq

inductive ContentType where
  | post
  | comment
deriving DecidableEq

-- One entry of the sentiments list built in _analyze_sentiment.
structure ScoredItem where
  type : ContentType
  polarity : ℚ
  subjectivity : ℚ
  score : Int
  created_utc : Int
deriving DecidableEq

-- The dict returned by _analyze_sentiment.  The zero-item branch returns a
-- dict WITHOUT the keys total_analyzed and sentiment_summary; those two keys
-- are therefore Option fields, none meaning the key is absent.
structure SentimentSummary where
  overall_polarity : ℚ
  overall_subjectivity : ℚ
  positive_pct : ℚ
  negative_pct : ℚ
  neutral_pct : ℚ
  sentiment_distribution : List ScoredItem
  total_analyzed : Option Nat
  sentiment_summary : Option String
deriving DecidableEq

-- One entry of the list returned by _create_timeline.
structure TimelineEntry where
  date : String
  posts : Nat
  comments : Nat
  total_activity : Nat
  total_score : Int
deriving DecidableEq

-- One entry of the list returned by _extract_keywords.
structure KeywordEntry where
  word : String
  count : Nat
deriving DecidableEq

-- The dict returned by _analyze_character.
structure CharacterProfile where
  personality_traits : List String
  communication_style : String
  engagement_level : String
  content_focus : List String
deriving DecidableEq

instance exceptDecEq {ε α : Type} [DecidableEq ε] [DecidableEq α] :
    DecidableEq (Except ε α) := fun a b =>
  match a, b with
  | Except.error e, Except.error f =>
    decidable_of_iff (e = f) ⟨congrArg Except.error, fun h => by injection h⟩
  | Except.ok a, Except.ok b =>
    decidable_of_iff (a = b) ⟨congrArg Except.ok, fun h => by injection h⟩
  | Except.error _, Except.ok _ => Decidable.isFalse (fun h => by injection h)
  | Except.ok _, Except.error _ => Decidable.isFalse (fun h => by injection h)

-- Python str.strip(): drop leading and trailing whitespace
def pyStrip (s : String) : String :=
  String.mk (((s.data.dropWhile Char.isWhitespace).reverse.dropWhile Char.isWhitespace).reverse)

-- ===== Python round() on rationals =====

-- round half to even, as Python round() does on an exactly representable value
def roundHalfEven (x : ℚ) : Int :=
  let f : Int := Rat.floor x
  if x - f < 1/2 then f
  else if (1 : ℚ)/2 < x - f then f + 1
  else if f % 2 = 0 then f else f + 1

-- Python round(x, ndigits)
def pyRound (ndigits : Nat) (x : ℚ) : ℚ :=
  (roundHalfEven (x * (10 : ℚ) ^ ndigits) : ℚ) / (10 : ℚ) ^ ndigits

-- Python f"{q:.1f}" for a nonnegative rational that is a multiple of 1/10
def fmt1 (q : ℚ) : String :=
  let n : Int := Rat.floor (q * 10)
  toString (n / 10) ++ "." ++ toString (n % 10)

-- ===== _get_sentiment_summary =====

def get_sentiment_summary (overall_polarity positive_pct negative_pct : ℚ) : String :=
  if overall_polarity > 3/10 then
    "Generally positive outlook (" ++ fmt1 positive_pct ++ "% positive content)"
  else if overall_polarity < -(3/10) then
    "Tends toward criticism (" ++ fmt1 negative_pct ++ "% negative content)"
  else
    "Balanced perspective (" ++ fmt1 positive_pct ++ "% positive, " ++ fmt1 negative_pct ++ "% negative)"

-- ===== _analyze_sentiment =====

-- One iteration of the posts loop of _analyze_sentiment:
-- text = f"{title} {text}"; skipped unless text.strip() is truthy.
def sentStepPost (scoreFn : String → Except String (ℚ × ℚ))
    (sentiments : List ScoredItem) (post : PostItem) : Except String (List ScoredItem) := do
  let text := post.title ++ " " ++ post.text
  if pyStrip text != "" then do
    let sc ← scoreFn text
    pure (sentiments ++ [⟨ContentType.post, sc.1, sc.2, post.score, post.created_utc⟩])
  else
    pure sentiments

-- One iteration of the comments loop of _analyze_sentiment:
-- skipped unless body.strip() is truthy and the UNSTRIPPED body is not the marker.
def sentStepComment (scoreFn : String → Except String (ℚ × ℚ))
    (sentiments : List ScoredItem) (comment : CommentItem) : Except String (List ScoredItem) := do
  if pyStrip comment.text != "" && comment.text != "[deleted]" then do
    let sc ← scoreFn comment.text
    pure (sentiments ++ [⟨ContentType.comment, sc.1, sc.2, comment.score, comment.created_utc⟩])
  else
    pure sentiments

-- The two for-loops of _analyze_sentiment that build the sentiments list.
-- scoreFn is the injected TextBlob sentiment scorer; it may raise.
def collect_sentiments (scoreFn : String → Except String (ℚ × ℚ))
    (posts_data : List PostItem) (comments_data : List CommentItem) :
    Except String (List ScoredItem) := do
  let fromPosts ← posts_data.foldlM (sentStepPost scoreFn) ([] : List ScoredItem)
  comments_data.foldlM (sentStepComment scoreFn) fromPosts

def analyze_sentiment (scoreFn : String → Except String (ℚ × ℚ))
    (posts_data : List PostItem) (comments_data : List CommentItem) :
    Except String SentimentSummary := do
  let sentiments ← collect_sentiments scoreFn posts_data comments_data
  if sentiments.isEmpty then
    -- the dict literal of the `if not sentiments` branch: no total_analyzed,
    -- no sentiment_summary key
    return ⟨0, 0, 0, 0, 0, [], none, none⟩
  else
    let total := sentiments.length
    let avg_polarity := (sentiments.map (fun s => s.polarity)).sum / (total : ℚ)
    let avg_subjectivity := (sentiments.map (fun s => s.subjectivity)).sum / (total : ℚ)
    let positive := (sentiments.filter (fun s => decide (s.polarity > 1/10))).length
    let negative := (sentiments.filter (fun s => decide (s.polarity < -(1/10)))).length
    let neutral := total - positive - negative
    return ⟨pyRound 3 avg_polarity, pyRound 3 avg_subjectivity,
      pyRound 1 ((positive : ℚ) / (total : ℚ) * 100),
      pyRound 1 ((negative : ℚ) / (total : ℚ) * 100),
      pyRound 1 ((neutral : ℚ) / (total : ℚ) * 100),
      sentiments, some total,
      some (get_sentiment_summary (pyRound 3 avg_polarity)
        (pyRound 1 ((positive : ℚ) / (total : ℚ) * 100))
        (pyRound 1 ((negative : ℚ) / (total : ℚ) * 100)))⟩

-- ===== calendar dates (datetime.fromtimestamp(...).strftime of the source) =====

-- civil date from days since the Unix epoch (standard civil-from-days algorithm)
def civilFromDays (z0 : Int) : Int × Nat × Nat :=
  let z := z0 + 719468
  let era : Int := z.fdiv 146097
  let doe : Nat := (z - era * 146097).toNat
  let yoe : Nat := (doe - doe / 1460 + doe / 36524 - doe / 146096) / 365
  let y : Int := (yoe : Int) + era * 400
  let doy : Nat := doe - (365 * yoe + yoe / 4 - yoe / 100)
  let mp : Nat := (5 * doy + 2) / 153
  let d : Nat := doy - (153 * mp + 2) / 5 + 1
  let m : Nat := if mp < 10 then mp + 3 else mp - 9
  (if m ≤ 2 then y + 1 else y, m, d)

def pad2 (n : Nat) : String :=
  if n < 10 then "0" ++ toString n else toString n

-- strftime of a civil date as YYYY-MM-DD
def dateStr (ymd : Int × Nat × Nat) : String :=
  toString ymd.1 ++ "-" ++ pad2 ymd.2.1 ++ "-" ++ pad2 ymd.2.2

-- datetime.fromtimestamp(ts).strftime, which converts in the HOST LOCAL
-- timezone, modelled as a fixed UTC offset tzOffset in seconds
def dateKey (tzOffset ts : Int) : String :=
  dateStr (civilFromDays ((ts + tzOffset).fdiv 86400))

-- the UTC calendar date of an epoch-seconds instant (what the spec asks for)
def utcDateStr (ts : Int) : String :=
  dateStr (civilFromDays (ts.fdiv 86400))

-- ===== stable sort (Python sorted / heapq.nlargest are stable) =====

-- insert x after every element y of an already sorted list with le y x
def insertLe {α : Type} (le : α → α → Bool) (x : α) : List α → List α
  | [] => [x]
  | y :: ys => if le y x then y :: insertLe le x ys else x :: y :: ys

-- stable sort: process elements left to right, each inserted after its equals
def pySorted {α : Type} (le : α → α → Bool) (l : List α) : List α :=
  l.foldl (fun acc x => insertLe le x acc) []

-- ===== _create_timeline =====

-- value type of the timeline defaultdict
structure TLData where
  posts : Nat
  comments : Nat
  total_score : Int
deriving DecidableEq

-- defaultdict access-and-update: first touch of a key appends it (insertion
-- order); later touches update in place
def tlUpdate (tl : List (String × TLData)) (d : String) (f : TLData → TLData) :
    List (String × TLData) :=
  match tl with
  | [] => [(d, f ⟨0, 0, 0⟩)]
  | (k, e) :: rest => if k = d then (k, f e) :: rest else (k, e) :: tlUpdate rest d f

-- the posts count of timeline[date] is incremented and the post score added
def tlStepPost (tzOffset : Int) (tl : List (String × TLData)) (post : PostItem) :
    List (String × TLData) :=
  tlUpdate tl (dateKey tzOffset post.created_utc)
    (fun e => ⟨e.posts + 1, e.comments, e.total_score + post.score⟩)

-- the comments count of timeline[date] is incremented and the comment score added
def tlStepComment (tzOffset : Int) (tl : List (String × TLData)) (comment : CommentItem) :
    List (String × TLData) :=
  tlUpdate tl (dateKey tzOffset comment.created_utc)
    (fun e => ⟨e.posts, e.comments + 1, e.total_score + comment.score⟩)

-- ordering of sorted(timeline.items()): ascending by the date-string key
def tlLe (a b : String × TLData) : Bool := decide (a.1 ≤ b.1)

-- one output dict of the sorted timeline list
def tlEntry (p : String × TLData) : TimelineEntry :=
  ⟨p.1, p.2.posts, p.2.comments, p.2.posts + p.2.comments, p.2.total_score⟩

def create_timeline (tzOffset : Int) (posts_data : List PostItem)
    (comments_data : List CommentItem) : List TimelineEntry :=
  let tl := posts_data.foldl (tlStepPost tzOffset) []
  let tl := comments_data.foldl (tlStepComment tzOffset) tl
  (pySorted tlLe tl).map tlEntry

-- ===== _extract_keywords =====

-- Python apostrophe character, used by the contraction stop words and by the
-- str() of a KeyError
def apos : String := String.mk [Char.ofNat 39]

-- the fixed stop_words set of _extract_keywords, as a list (membership only)
def stop_words : List String := [
  -- Articles
  "the", "a", "an",
  -- Prepositions
  "in", "on", "at", "to", "for", "of", "with", "by", "from", "up", "about", "into",
  "through", "during", "before", "after", "above", "below", "between", "among",
  "under", "over", "across", "against", "within", "without", "toward", "towards",
  "beside", "behind", "beneath", "beyond", "inside", "outside", "upon", "underneath",
  "off", "out", "down", "near", "around", "along", "throughout", "concerning",
  "regarding", "despite", "except", "including", "excluding", "according",
  -- Conjunctions
  "and", "or", "but", "nor", "yet", "so", "if", "although", "though", "because",
  "since", "unless", "while", "whereas", "however", "therefore", "moreover",
  "furthermore", "nevertheless", "nonetheless", "meanwhile", "otherwise", "hence",
  -- Pronouns
  "i", "you", "he", "she", "it", "we", "they", "me", "him", "her", "us", "them",
  "my", "your", "his", "hers", "its", "our", "their", "mine", "yours", "ours",
  "theirs", "myself", "yourself", "himself", "herself", "itself", "ourselves",
  "yourselves", "themselves", "this", "that", "these", "those", "who", "whom",
  "whose", "which", "what", "whoever", "whomever", "whatever", "whichever",
  "someone", "somebody", "something", "anyone", "anybody", "anything", "everyone",
  "everybody", "everything", "no one", "nobody", "nothing", "one", "ones",
  -- Auxiliary Verbs
  "is", "are", "was", "were", "be", "been", "being", "have", "has", "had", "having",
  "do", "does", "did", "doing", "will", "would", "could", "should", "may", "might",
  "must", "shall", "can", "ought", "used", "need", "dare", "am",
  -- Adverbs of Degree and Frequency
  "very", "quite", "rather", "too", "so", "enough", "pretty", "fairly", "really",
  "extremely", "incredibly", "absolutely", "completely", "totally", "entirely",
  "always", "never", "often", "sometimes", "usually", "frequently", "rarely",
  "seldom", "occasionally", "constantly", "continually", "regularly", "normally",
  "generally", "typically", "commonly", "mostly", "mainly", "largely", "mostly",
  "almost", "nearly", "barely", "hardly", "scarcely", "just", "only", "even",
  "still", "yet", "already", "soon", "later", "now", "then", "here", "there",
  "everywhere", "somewhere", "anywhere", "nowhere",
  -- Interjections and Filler Words
  "oh", "ah", "wow", "hey", "well", "um", "uh", "hmm", "yeah", "yes", "no", "okay",
  "ok", "sure", "right", "like", "actually", "basically", "literally", "seriously",
  "honestly", "obviously", "clearly", "definitely", "probably", "maybe", "perhaps",
  "possibly", "certainly", "surely", "indeed", "truly", "really", "quite", "rather",
  -- Negations and Contractions
  "not", "don" ++ apos ++ "t", "doesn" ++ apos ++ "t", "didn" ++ apos ++ "t",
  "won" ++ apos ++ "t", "wouldn" ++ apos ++ "t", "can" ++ apos ++ "t",
  "couldn" ++ apos ++ "t",
  "shouldn" ++ apos ++ "t", "isn" ++ apos ++ "t", "aren" ++ apos ++ "t",
  "wasn" ++ apos ++ "t", "weren" ++ apos ++ "t", "haven" ++ apos ++ "t",
  "hasn" ++ apos ++ "t",
  "hadn" ++ apos ++ "t", "mustn" ++ apos ++ "t", "needn" ++ apos ++ "t",
  "daren" ++ apos ++ "t", "shan" ++ apos ++ "t", "ain" ++ apos ++ "t",
  -- Politeness and Social Words
  "thank", "thanks", "thank you", "please", "sorry", "excuse", "pardon", "welcome",
  "hello", "hi", "bye", "goodbye", "farewell", "greetings", "cheers", "regards",
  -- Emphasis and Agreement Words
  "exactly", "absolutely", "totally", "completely", "perfectly", "precisely",
  "correct", "right", "true", "false", "wrong", "agree", "disagree", "yep", "nope",
  "uh-huh", "mm-hmm", "yup", "nah", "yeah", "yea", "aye",
  -- Internet Slang and Abbreviations
  "lol", "lmao", "rofl", "omg", "wtf", "tbh", "imo", "imho", "fyi", "btw", "aka",
  "etc", "ie", "eg", "vs", "tho", "thru", "ur", "u", "r", "n", "w/", "w/o",
  -- Action Verbs - Physical Actions
  "walk", "run", "jump", "sit", "stand", "move", "dance", "swim", "fly", "drive",
  "ride", "climb", "fall", "drop", "lift", "carry", "hold", "grab", "push", "pull",
  "throw", "catch", "kick", "hit", "touch", "reach", "stretch", "bend", "turn",
  "open", "close", "lock", "unlock", "enter", "exit", "arrive", "leave", "return",
  -- Action Verbs - Mental Actions
  "think", "know", "understand", "remember", "forget", "learn", "study", "teach",
  "believe", "doubt", "wonder", "imagine", "dream", "hope", "wish", "want", "need",
  "love", "hate", "like", "dislike", "prefer", "choose", "decide", "plan", "intend",
  "expect", "assume", "suppose", "guess", "realize", "recognize", "notice", "observe",
  -- Action Verbs - Communication
  "say", "tell", "speak", "talk", "whisper", "shout", "yell", "scream", "call",
  "ask", "answer", "reply", "respond", "explain", "describe", "mention", "announce",
  "declare", "state", "claim", "argue", "discuss", "debate", "complain", "suggest",
  "recommend", "advise", "warn", "promise", "threaten", "invite", "request", "demand",
  -- Action Verbs - Creation and Destruction
  "make", "create", "build", "construct", "produce", "generate", "develop", "design",
  "write", "draw", "paint", "compose", "form", "shape", "mold", "craft", "cook",
  "bake", "prepare", "fix", "repair", "restore", "break", "destroy", "damage",
  "ruin", "demolish", "tear", "cut", "slice", "chop", "burn", "melt", "freeze",
  -- Action Verbs - Possession and Transfer
  "have", "own", "possess", "get", "obtain", "acquire", "receive", "take", "give",
  "offer", "provide", "supply", "deliver", "send", "bring", "fetch", "collect",
  "gather", "save", "keep", "store", "hide", "lose", "find", "discover", "locate",
  "buy", "sell", "trade", "exchange", "share", "lend", "borrow", "rent", "lease",
  -- Action Verbs - Senses and Perception
  "see", "look", "watch", "stare", "glance", "peek", "observe", "view", "notice",
  "hear", "listen", "sound", "smell", "taste", "feel", "touch", "sense", "perceive",
  -- Action Verbs - Technology and Work
  "work", "operate", "function", "run", "start", "stop", "pause", "continue", "finish",
  "complete", "begin", "end", "play", "record", "save", "load", "download", "upload",
  "install", "update", "delete", "remove", "add", "insert", "copy", "paste", "edit",
  "modify", "change", "adjust", "configure", "setup", "connect", "disconnect", "sync",
  -- Linking Verbs and State of Being
  "be", "am", "is", "are", "was", "were", "being", "been", "become", "seem", "appear",
  "look", "sound", "smell", "taste", "feel", "remain", "stay", "grow", "turn", "get",
  "prove", "act", "serve", "represent", "constitute", "equal", "measure", "weigh",
  -- Helping and Auxiliary Verbs
  "will", "would", "shall", "should", "may", "might", "must", "can", "could", "ought",
  "do", "does", "did", "have", "has", "had", "let", "help", "allow", "permit", "enable",
  -- Action Verbs - Social Interactions
  "meet", "greet", "visit", "join", "participate", "attend", "celebrate", "party",
  "marry", "divorce", "date", "befriend", "follow", "lead", "guide", "support",
  "help", "assist", "serve", "cooperate", "collaborate", "compete", "fight", "argue",
  "apologize", "forgive", "blame", "accuse", "defend", "protect", "attack", "threaten",
  -- Action Verbs - Emotional and Mental States
  "worry", "fear", "panic", "relax", "calm", "enjoy", "suffer", "struggle", "cope",
  "manage", "handle", "deal", "face", "confront", "avoid", "escape", "flee", "hide",
  "ignore", "acknowledge", "accept", "reject", "approve", "disapprove", "appreciate",
  "value", "respect", "admire", "envy", "jealous", "proud", "ashamed", "embarrassed",
  -- Action Verbs - Time and Process
  "happen", "occur", "take place", "last", "continue", "proceed", "advance", "progress",
  "develop", "evolve", "mature", "age", "expire", "end", "conclude", "result", "cause",
  "lead", "contribute", "influence", "affect", "impact", "determine", "control", "manage",
  -- Action Verbs - Movement and Direction
  "travel", "journey", "migrate", "wander", "roam", "explore", "navigate", "direct",
  "guide", "lead", "follow", "chase", "pursue", "hunt", "search", "seek", "find",
  "approach", "retreat", "advance", "withdraw", "emerge", "surface", "dive", "sink",
  -- Action Verbs - Health and Body
  "eat", "drink", "swallow", "chew", "bite", "taste", "digest", "breathe", "inhale",
  "exhale", "cough", "sneeze", "yawn", "sleep", "wake", "rest", "exercise", "stretch",
  "hurt", "heal", "recover", "improve", "worsen", "suffer", "ache", "bleed", "bruise",
  -- Numbers and basic descriptors
  "one", "two", "three", "four", "five", "six", "seven", "eight", "nine", "ten",
  "first", "second", "third", "last", "next", "previous", "another", "other",
  "same", "different", "new", "old", "young", "big", "small", "large", "little",
  "good", "bad", "best", "worst", "better", "worse", "great", "nice", "fine",
  "long", "short", "high", "low", "much", "many", "few", "more", "most", "less",
  "least", "all", "some", "any", "each", "every", "both", "either", "neither",
  "such", "own", "back", "way", "also", "too", "either"]

-- the per-comment filter of the blob list comprehension:
-- the comment body must be truthy and must differ from the marker, untrimmed
def blobParts (comments_data : List CommentItem) : List String :=
  (comments_data.filter (fun comment =>
    comment.text != "" && comment.text != "[deleted]")).map (fun comment => comment.text)

-- a word character of the regex escape for mentions (ASCII range)
def isWordCharB (c : Char) : Bool := c.isAlphanum || c == Char.ofNat 95

-- one character of the URL-body character class of the URL pattern
def urlBodyChar (c : Char) : Bool :=
  c.isAlpha || c.isDigit || (decide (36 ≤ c.toNat) && decide (c.toNat ≤ 95)) ||
  c.toNat == 33 || c.toNat == 42 || c.toNat == 92 || c.toNat == 40 ||
  c.toNat == 41 || c.toNat == 44 || c.toNat == 37

-- length of the maximal run of characters satisfying p
def countRun (p : Char → Bool) : List Char → Nat
  | [] => 0
  | c :: cs => if p c then countRun p cs + 1 else 0

-- leftmost, non-overlapping, delete-the-match substitution (re.sub repl "")
def gsubAux (m : List Char → Option Nat) : Nat → List Char → List Char
  | 0, _ => []
  | _ + 1, [] => []
  | fuel + 1, c :: cs =>
    match m (c :: cs) with
    | some (k + 1) => gsubAux m fuel (cs.drop k)
    | _ => c :: gsubAux m fuel cs

def gsub (m : List Char → Option Nat) (s : String) : String :=
  String.mk (gsubAux m s.data.length s.data)

-- match for the URL pattern of _extract_keywords at the current position
def matchUrl (cs : List Char) : Option Nat :=
  match cs with
  | 'h' :: 't' :: 't' :: 'p' :: rest =>
    match rest with
    | 's' :: ':' :: '/' :: '/' :: body =>
      let n := countRun urlBodyChar body
      if n = 0 then none else some (8 + n)
    | ':' :: '/' :: '/' :: body =>
      let n := countRun urlBodyChar body
      if n = 0 then none else some (7 + n)
    | _ => none
  | _ => none

-- match for the user-mention pattern at the current position
def matchUserMention (cs : List Char) : Option Nat :=
  match cs with
  | 'u' :: '/' :: rest =>
    let n := countRun isWordCharB rest
    if n = 0 then none else some (2 + n)
  | _ => none

-- match for the subreddit-mention pattern at the current position
def matchSubMention (cs : List Char) : Option Nat :=
  match cs with
  | 'r' :: '/' :: rest =>
    let n := countRun isWordCharB rest
    if n = 0 then none else some (2 + n)
  | _ => none

-- the character filter keeping only ASCII letters and whitespace
def keepAlphaWs (c : Char) : Bool := c.isAlpha || c.isWhitespace

-- str.split() with no arguments: maximal runs of non-whitespace characters
def splitWsAux : List Char → List Char → List (List Char)
  | cur, [] => if cur.isEmpty then [] else [cur.reverse]
  | cur, c :: cs =>
    if c.isWhitespace then
      if cur.isEmpty then splitWsAux [] cs else cur.reverse :: splitWsAux [] cs
    else
      splitWsAux (c :: cur) cs

def splitWs (cs : List Char) : List (List Char) := splitWsAux [] cs

-- the cleaning pipeline of _extract_keywords: URL, u/, r/ removal, drop of
-- non-alphabetic characters, lowercase, split on whitespace
def cleanedTokens (all_text : String) : List String :=
  let c1 := gsub matchUrl all_text
  let c2 := gsub matchUserMention c1
  let c3 := gsub matchSubMention c2
  let cleaned := c3.data.filter keepAlphaWs
  (splitWs (cleaned.map Char.toLower)).map (fun t => String.mk t)

-- Counter(filtered_words): counts in first-occurrence order
def countInsert (l : List (String × Nat)) (w : String) : List (String × Nat) :=
  match l with
  | [] => [(w, 1)]
  | (a, n) :: rest => if a = w then (a, n + 1) :: rest else (a, n) :: countInsert rest w

-- Counter.most_common(n): stable sort, descending by count, first n
def mostCommon (counts : List (String × Nat)) (n : Nat) : List (String × Nat) :=
  (pySorted (fun a b => decide (b.2 ≤ a.2)) counts).take n

def extract_keywords (comments_data : List CommentItem) (top_n : Nat) : List KeywordEntry :=
  if comments_data.isEmpty then []
  else
    let all_text := String.intercalate " " (blobParts comments_data)
    if pyStrip all_text = "" then []
    else
      let words := cleanedTokens all_text
      let filtered_words := words.filter (fun word =>
        decide (word.length > 2) && !(stop_words.contains word))
      let word_counter := filtered_words.foldl countInsert []
      (mostCommon word_counter top_n).map (fun p => ⟨p.1, p.2⟩)

-- ===== _analyze_character =====

def analyze_character (sentiment_analysis : SentimentSummary)
    (posts_data : List PostItem) (comments_data : List CommentItem) :
    Except String CharacterProfile :=
  -- the source tests falsiness of the summary dict, then reads total_analyzed:
  -- the summary dict is never empty, so the key is always read; reading an
  -- absent key raises KeyError, whose str() is the quoted key name
  match sentiment_analysis.total_analyzed with
  | none => Except.error (apos ++ "total_analyzed" ++ apos)
  | some total_analyzed =>
    if total_analyzed = 0 then
      Except.ok ⟨["Insufficient data for analysis"], "Unknown", "Unknown", []⟩
    else
      let polarity := sentiment_analysis.overall_polarity
      let subjectivity := sentiment_analysis.overall_subjectivity
      let traits0 : List String :=
        if polarity > 1/5 then ["Optimistic"]
        else if polarity < -(1/5) then ["Critical"]
        else ["Balanced"]
      let traits1 := traits0 ++
        (if subjectivity > 3/5 then ["Opinionated"]
         else if subjectivity < 3/10 then ["Factual"]
         else ["Moderate"])
      let total_posts := posts_data.length
      let total_comments := comments_data.length
      let traits := traits1 ++
        (if total_posts > total_comments then ["Content Creator"]
         else if total_comments > total_posts * 3 then ["Active Commenter"]
         else [])
      let communication_style :=
        if subjectivity > 7/10 then "Expressive and Personal"
        else if subjectivity < 3/10 then "Objective and Factual"
        else "Balanced and Thoughtful"
      let total_activity := total_posts + total_comments
      let engagement_level :=
        if total_activity > 50 then "Highly Active"
        else if total_activity > 20 then "Moderately Active"
        else "Casual User"
      let subreddit_counter := comments_data.foldl
        (fun l comment => countInsert l comment.subreddit)
        (posts_data.foldl (fun l post => countInsert l post.subreddit) [])
      let content_focus := (mostCommon subreddit_counter 5).map (fun p => p.1)
      Except.ok ⟨traits, communication_style, engagement_level, content_focus⟩

-- ===== analyze_user (orchestrator) =====

-- the dict built by _get_user_info (fields beyond the claims are elided)
structure UserInfo where
  username : String
  post_karma : Int
  comment_karma : Int
deriving DecidableEq

structure AnalysisResult where
  username : String
  user_info : Option UserInfo
  sentiment_analysis : SentimentSummary
  timeline_data : List TimelineEntry
  top_keywords : List KeywordEntry
  character_analysis : CharacterProfile
  total_posts : Nat
  total_comments : Nat
  total_content : Nat
deriving DecidableEq

-- the success-or-error dict returned by analyze_user
structure ResultRecord where
  success : Bool
  error : Option String
  result : Option AnalysisResult
deriving DecidableEq

-- the injected capabilities: Reddit fetches, TextBlob scorer, host timezone
structure Caps where
  fetchCreated : String → Except String Int
  fetchInfo : String → Except String UserInfo
  fetchPosts : String → Except String (List PostItem)
  fetchComments : String → Except String (List CommentItem)
  scoreFn : String → Except String (ℚ × ℚ)
  tzOffset : Int

-- _get_user_content: each fetch failure degrades to an empty list
def get_user_content (caps : Caps) (username : String) :
    List PostItem × List CommentItem :=
  (match caps.fetchPosts username with
   | Except.ok l => l
   | Except.error _ => [],
   match caps.fetchComments username with
   | Except.ok l => l
   | Except.error _ => [])

-- the body of the outer try block of analyze_user, after the existence check
def run_pipeline (caps : Caps) (username : String) : Except String AnalysisResult := do
  let user_data := (caps.fetchInfo username).toOption
  let pc := get_user_content caps username
  let posts_data := pc.1
  let comments_data := pc.2
  let sentiment_analysis ← analyze_sentiment caps.scoreFn posts_data comments_data
  let timeline_data := create_timeline caps.tzOffset posts_data comments_data
  let top_keywords := extract_keywords comments_data 10
  let character_analysis ← analyze_character sentiment_analysis posts_data comments_data
  pure ⟨username, user_data, sentiment_analysis, timeline_data, top_keywords,
    character_analysis, posts_data.length, comments_data.length,
    posts_data.length + comments_data.length⟩

def analyze_user (caps : Caps) (username : String) : ResultRecord :=
  match caps.fetchCreated username with
  | Except.error _ =>
    ⟨false, some ("User \"" ++ username ++ "\" not found or account is suspended"), none⟩
  | Except.ok _ =>
    match run_pipeline caps username with
    | Except.error e => ⟨false, some ("Failed to analyze user: " ++ e), none⟩
    | Except.ok r => ⟨true, none, some r⟩


-- ===== concrete fixtures used by the claim theorems =====

-- a comment whose body is exactly the deletion marker
def cdel : CommentItem := ⟨"c1", "[deleted]", 1, 0, "sub", "p1"⟩

-- a comment whose body is the deletion marker padded with whitespace
def cpad : CommentItem := ⟨"c2", " [deleted] ", 1, 0, "sub", "p1"⟩

-- a short ordinary comment
def chi : CommentItem := ⟨"c3", "hi", 1, 0, "sub", "p1"⟩

-- the comment of the keyword scenario
def chike : CommentItem := ⟨"c4", "I love hiking mountains", 5, 0, "sub", "p1"⟩

-- a comment containing an apostrophe contraction
def cdont : CommentItem := ⟨"c5", "don" ++ apos ++ "t", 1, 0, "sub", "p1"⟩

-- a post whose title is the deletion marker and whose body is empty
def pdel : PostItem := ⟨"p1", "[deleted]", "", 3, 0, "sub", 0, ""⟩

-- a scorer returning polarity 0, subjectivity 0 on every text
def scr0 : String → Except String (ℚ × ℚ) := fun _ => Except.ok (0, 0)

-- a scorer returning polarity 3/10, subjectivity 1/2 on every text
def scr06 : String → Except String (ℚ × ℚ) := fun _ => Except.ok (3/10, 1/2)

-- a scorer that raises on every text
def scrBoom : String → Except String (ℚ × ℚ) := fun _ => Except.error "boom"

-- capabilities whose pipeline raises inside the sentiment stage
def capsBoom : Caps :=
  ⟨fun _ => Except.ok 0, fun _ => Except.error "private", fun _ => Except.ok [],
   fun _ => Except.ok [chi], scrBoom, 0⟩

-- capabilities that fetch a single [deleted] comment and no posts
def capsDel : Caps :=
  ⟨fun _ => Except.ok 0, fun _ => Except.error "private", fun _ => Except.ok [],
   fun _ => Except.ok [cdel], scr0, 0⟩

-- a non-degenerate sentiment summary whose rounded mean polarity is exactly 0.3
def sa06 : SentimentSummary := ⟨3/10, 1/2, 100, 0, 0, [], some 1, none⟩

attribute [local semireducible] Rat.mul Rat.add Rat.sub Rat.inv Rat.ofScientific

set_option maxRecDepth 16000

-- ===== sort lemmas =====

theorem insertLe_perm {α : Type} (le : α → α → Bool) (x : α) (l : List α) :
    (insertLe le x l).Perm (x :: l) := by
  induction l with
  | nil => exact List.Perm.refl _
  | cons y ys ih =>
    cases h : le y x with
    | true =>
      simp only [insertLe, h, if_true]
      exact (ih.cons y).trans (List.Perm.swap x y ys)
    | false =>
      simp [insertLe, h]

theorem pySorted_perm_aux {α : Type} (le : α → α → Bool) :
    ∀ (l acc : List α), (l.foldl (fun acc x => insertLe le x acc) acc).Perm (acc ++ l) := by
  intro l
  induction l with
  | nil => intro acc; simp
  | cons x xs ih =>
    intro acc
    simp only [List.foldl_cons]
    refine ((ih (insertLe le x acc)).trans ?_)
    refine (((insertLe_perm le x acc).append_right xs).trans ?_)
    exact List.perm_middle.symm

theorem pySorted_perm {α : Type} (le : α → α → Bool) (l : List α) :
    (pySorted le l).Perm l := by
  simpa using pySorted_perm_aux le l []

theorem insertLe_pairwise {α : Type} {le : α → α → Bool}
    (htrans : ∀ a b c, le a b = true → le b c = true → le a c = true)
    (htot : ∀ a b, le a b = true ∨ le b a = true) (x : α) :
    ∀ {l : List α}, l.Pairwise (fun a b => le a b = true) →
      (insertLe le x l).Pairwise (fun a b => le a b = true) := by
  intro l h
  induction l with
  | nil => simp [insertLe]
  | cons y ys ih =>
    rcases List.pairwise_cons.mp h with ⟨hy, hys⟩
    cases hle : le y x with
    | true =>
      simp only [insertLe, hle, if_true]
      refine List.pairwise_cons.mpr ⟨?_, ih hys⟩
      intro z hz
      rcases List.mem_cons.mp ((insertLe_perm le x ys).mem_iff.mp hz) with h1 | h1
      · exact h1 ▸ hle
      · exact hy z h1
    | false =>
      simp only [insertLe, hle, Bool.false_eq_true, if_false]
      refine List.pairwise_cons.mpr ⟨?_, h⟩
      intro z hz
      rcases List.mem_cons.mp hz with h1 | h1
      · subst h1
        rcases htot x z with h2 | h2
        · exact h2
        · exact absurd h2 (by simp [hle])
      · have hxy : le x y = true := by
          rcases htot x y with h2 | h2
          · exact h2
          · exact absurd h2 (by simp [hle])
        exact htrans x y z hxy (hy z h1)

theorem pySorted_pairwise {α : Type} {le : α → α → Bool}
    (htrans : ∀ a b c, le a b = true → le b c = true → le a c = true)
    (htot : ∀ a b, le a b = true ∨ le b a = true) (l : List α) :
    (pySorted le l).Pairwise (fun a b => le a b = true) := by
  have aux : ∀ (l acc : List α), acc.Pairwise (fun a b => le a b = true) →
      (l.foldl (fun acc x => insertLe le x acc) acc).Pairwise (fun a b => le a b = true) := by
    intro l
    induction l with
    | nil => intro acc h; simpa using h
    | cons x xs ih =>
      intro acc h
      simp only [List.foldl_cons]
      exact ih _ (insertLe_pairwise htrans htot x h)
  exact aux l [] (List.Pairwise.nil)


-- ===== timeline lemmas =====

theorem tlUpdate_keys (tl : List (String × TLData)) (d : String) (f : TLData → TLData) :
    (tlUpdate tl d f).map Prod.fst =
      if d ∈ tl.map Prod.fst then tl.map Prod.fst else tl.map Prod.fst ++ [d] := by
  induction tl with
  | nil => simp [tlUpdate]
  | cons p rest ih =>
    obtain ⟨k, e⟩ := p
    by_cases h : k = d
    · subst h
      simp [tlUpdate]
    · have hdk : ¬ (d = k) := fun hh => h hh.symm
      simp only [tlUpdate, if_neg h, List.map_cons, List.mem_cons, hdk, false_or, ih]
      by_cases hmem : d ∈ rest.map Prod.fst
      · simp [hmem]
      · simp [hmem]

theorem tlUpdate_keys_nodup {tl : List (String × TLData)} {d : String} {f : TLData → TLData}
    (h : (tl.map Prod.fst).Nodup) : ((tlUpdate tl d f).map Prod.fst).Nodup := by
  rw [tlUpdate_keys]
  by_cases hmem : d ∈ tl.map Prod.fst
  · simpa [hmem] using h
  · simp only [hmem, if_false]
    rw [List.nodup_append]
    refine ⟨h, List.nodup_singleton d, ?_⟩
    intro a ha hd
    simp only [List.mem_singleton] at hd
    subst hd
    exact hmem ha

theorem tlUpdate_sum (g : TLData → Nat) (k : Nat) (f : TLData → TLData)
    (hz : g ⟨0, 0, 0⟩ = 0) (hf : ∀ e, g (f e) = g e + k)
    (tl : List (String × TLData)) (d : String) :
    ((tlUpdate tl d f).map (fun p => g p.2)).sum = (tl.map (fun p => g p.2)).sum + k := by
  induction tl with
  | nil => simp [tlUpdate, hf, hz]
  | cons p rest ih =>
    obtain ⟨k', e⟩ := p
    by_cases h : k' = d
    · subst h
      simp [tlUpdate, hf]
      omega
    · simp only [tlUpdate, if_neg h, List.map_cons, List.sum_cons, ih]
      omega

theorem foldl_stepPost_sum_posts (tzOffset : Int) :
    ∀ (posts : List PostItem) (tl : List (String × TLData)),
      ((posts.foldl (tlStepPost tzOffset) tl).map (fun p => p.2.posts)).sum
        = (tl.map (fun p => p.2.posts)).sum + posts.length := by
  intro posts
  induction posts with
  | nil => intro tl; simp
  | cons b bs ih =>
    intro tl
    simp only [List.foldl_cons, ih, tlStepPost]
    rw [tlUpdate_sum (fun e => e.posts) 1
      (fun e => ⟨e.posts + 1, e.comments, e.total_score + b.score⟩) rfl (fun _ => rfl)]
    simp only [List.length_cons]
    omega

theorem foldl_stepPost_sum_comments (tzOffset : Int) :
    ∀ (posts : List PostItem) (tl : List (String × TLData)),
      ((posts.foldl (tlStepPost tzOffset) tl).map (fun p => p.2.comments)).sum
        = (tl.map (fun p => p.2.comments)).sum := by
  intro posts
  induction posts with
  | nil => intro tl; simp
  | cons b bs ih =>
    intro tl
    simp only [List.foldl_cons, ih, tlStepPost]
    rw [tlUpdate_sum (fun e => e.comments) 0
      (fun e => ⟨e.posts + 1, e.comments, e.total_score + b.score⟩) rfl (fun _ => rfl)]
    omega

theorem foldl_stepComment_sum_comments (tzOffset : Int) :
    ∀ (comments : List CommentItem) (tl : List (String × TLData)),
      ((comments.foldl (tlStepComment tzOffset) tl).map (fun p => p.2.comments)).sum
        = (tl.map (fun p => p.2.comments)).sum + comments.length := by
  intro comments
  induction comments with
  | nil => intro tl; simp
  | cons b bs ih =>
    intro tl
    simp only [List.foldl_cons, ih, tlStepComment]
    rw [tlUpdate_sum (fun e => e.comments) 1
      (fun e => ⟨e.posts, e.comments + 1, e.total_score + b.score⟩) rfl (fun _ => rfl)]
    simp only [List.length_cons]
    omega

theorem foldl_stepComment_sum_posts (tzOffset : Int) :
    ∀ (comments : List CommentItem) (tl : List (String × TLData)),
      ((comments.foldl (tlStepComment tzOffset) tl).map (fun p => p.2.posts)).sum
        = (tl.map (fun p => p.2.posts)).sum := by
  intro comments
  induction comments with
  | nil => intro tl; simp
  | cons b bs ih =>
    intro tl
    simp only [List.foldl_cons, ih, tlStepComment]
    rw [tlUpdate_sum (fun e => e.posts) 0
      (fun e => ⟨e.posts, e.comments + 1, e.total_score + b.score⟩) rfl (fun _ => rfl)]
    omega

theorem foldl_stepPost_keys_nodup (tzOffset : Int) :
    ∀ (posts : List PostItem) (tl : List (String × TLData)),
      (tl.map Prod.fst).Nodup →
      ((posts.foldl (tlStepPost tzOffset) tl).map Prod.fst).Nodup := by
  intro posts
  induction posts with
  | nil => intro tl h; simpa using h
  | cons b bs ih =>
    intro tl h
    simp only [List.foldl_cons]
    exact ih _ (tlUpdate_keys_nodup h)

theorem foldl_stepComment_keys_nodup (tzOffset : Int) :
    ∀ (comments : List CommentItem) (tl : List (String × TLData)),
      (tl.map Prod.fst).Nodup →
      ((comments.foldl (tlStepComment tzOffset) tl).map Prod.fst).Nodup := by
  intro comments
  induction comments with
  | nil => intro tl h; simpa using h
  | cons b bs ih =>
    intro tl h
    simp only [List.foldl_cons]
    exact ih _ (tlUpdate_keys_nodup h)

theorem pySorted_tlLe_sum_posts (l : List (String × TLData)) :
    ((((pySorted tlLe l).map tlEntry)).map (fun e => e.posts)).sum
      = (l.map (fun p => p.2.posts)).sum := by
  rw [List.map_map]
  have hcomp : ((fun e => TimelineEntry.posts e) ∘ tlEntry) = fun p : String × TLData => p.2.posts := rfl
  rw [hcomp]
  exact ((pySorted_perm tlLe l).map (fun p => p.2.posts)).sum_eq

theorem pySorted_tlLe_sum_comments (l : List (String × TLData)) :
    ((((pySorted tlLe l).map tlEntry)).map (fun e => e.comments)).sum
      = (l.map (fun p => p.2.comments)).sum := by
  rw [List.map_map]
  have hcomp : ((fun e => TimelineEntry.comments e) ∘ tlEntry) = fun p : String × TLData => p.2.comments := rfl
  rw [hcomp]
  exact ((pySorted_perm tlLe l).map (fun p => p.2.comments)).sum_eq

theorem pySorted_tlLe_strict (l : List (String × TLData))
    (h : (l.map Prod.fst).Nodup) :
    ((pySorted tlLe l).map tlEntry).Pairwise (fun a b => a.date < b.date) := by
  have htrans : ∀ a b c, tlLe a b = true → tlLe b c = true → tlLe a c = true := by
    intro a b c hab hbc
    simp only [tlLe, decide_eq_true_eq] at *
    exact le_trans hab hbc
  have htot : ∀ a b, tlLe a b = true ∨ tlLe b a = true := by
    intro a b
    simp only [tlLe, decide_eq_true_eq]
    exact le_total a.1 b.1
  have hsle : (pySorted tlLe l).Pairwise (fun a b => a.1 ≤ b.1) := by
    refine (pySorted_pairwise htrans htot l).imp ?_
    intro a b hab
    simpa [tlLe, decide_eq_true_eq] using hab
  have hnodupS : ((pySorted tlLe l).map Prod.fst).Nodup := by
    rw [((pySorted_perm tlLe l).map Prod.fst).nodup_iff]
    exact h
  have hne : (pySorted tlLe l).Pairwise (fun a b => a.1 ≠ b.1) := by
    rw [List.Nodup, List.pairwise_map] at hnodupS
    exact hnodupS
  rw [List.pairwise_map]
  refine (hsle.and hne).imp ?_
  intro a b hab
  exact lt_of_le_of_ne hab.1 hab.2

theorem create_timeline_spec (tzOffset : Int) (posts_data : List PostItem)
    (comments_data : List CommentItem) :
    ((create_timeline tzOffset posts_data comments_data).map (fun e => e.posts)).sum
        = posts_data.length ∧
    ((create_timeline tzOffset posts_data comments_data).map (fun e => e.comments)).sum
        = comments_data.length ∧
    (create_timeline tzOffset posts_data comments_data).Pairwise
      (fun e1 e2 => e1.date < e2.date) := by
  unfold create_timeline
  refine ⟨?_, ?_, ?_⟩
  · rw [pySorted_tlLe_sum_posts, foldl_stepComment_sum_posts, foldl_stepPost_sum_posts]
    simp
  · rw [pySorted_tlLe_sum_comments, foldl_stepComment_sum_comments, foldl_stepPost_sum_comments]
    simp
  · refine pySorted_tlLe_strict _ ?_
    refine foldl_stepComment_keys_nodup tzOffset comments_data _ ?_
    exact foldl_stepPost_keys_nodup tzOffset posts_data [] (by simp)


-- ===== collect_sentiments with a non-raising scorer =====

theorem foldlM_sentStepPost_pure (f : String → ℚ × ℚ) :
    ∀ (posts : List PostItem) (acc : List ScoredItem),
      posts.foldlM (sentStepPost (fun t => Except.ok (f t))) acc
        = Except.ok (acc ++
            (posts.filter (fun post => pyStrip (post.title ++ " " ++ post.text) != "")).map
              (fun post => ⟨ContentType.post, (f (post.title ++ " " ++ post.text)).1,
                (f (post.title ++ " " ++ post.text)).2, post.score, post.created_utc⟩)) := by
  intro posts
  induction posts with
  | nil =>
    intro acc
    simp only [List.foldlM_nil, List.filter_nil, List.map_nil, List.append_nil]
    rfl
  | cons p ps ih =>
    intro acc
    rw [List.foldlM_cons]
    cases hc : pyStrip (p.title ++ " " ++ p.text) != "" with
    | true =>
      have hstep : sentStepPost (fun t => Except.ok (f t)) acc p
          = Except.ok (acc ++ [⟨ContentType.post, (f (p.title ++ " " ++ p.text)).1,
              (f (p.title ++ " " ++ p.text)).2, p.score, p.created_utc⟩]) := by
        simp [sentStepPost, hc]
      rw [hstep]
      show ps.foldlM (sentStepPost (fun t => Except.ok (f t))) _ = _
      rw [ih]
      simp [List.filter_cons, hc]
    | false =>
      have hstep : sentStepPost (fun t => Except.ok (f t)) acc p = Except.ok acc := by
        simp only [sentStepPost, hc, Bool.false_eq_true, if_false]
        rfl
      rw [hstep]
      show ps.foldlM (sentStepPost (fun t => Except.ok (f t))) _ = _
      rw [ih]
      simp [List.filter_cons, hc]

theorem foldlM_sentStepComment_pure (f : String → ℚ × ℚ) :
    ∀ (comments : List CommentItem) (acc : List ScoredItem),
      comments.foldlM (sentStepComment (fun t => Except.ok (f t))) acc
        = Except.ok (acc ++
            (comments.filter (fun comment =>
                pyStrip comment.text != "" && comment.text != "[deleted]")).map
              (fun comment => ⟨ContentType.comment, (f comment.text).1, (f comment.text).2,
                comment.score, comment.created_utc⟩)) := by
  intro comments
  induction comments with
  | nil =>
    intro acc
    simp only [List.foldlM_nil, List.filter_nil, List.map_nil, List.append_nil]
    rfl
  | cons c cs ih =>
    intro acc
    rw [List.foldlM_cons]
    cases hc : pyStrip c.text != "" && c.text != "[deleted]" with
    | true =>
      have hstep : sentStepComment (fun t => Except.ok (f t)) acc c
          = Except.ok (acc ++ [⟨ContentType.comment, (f c.text).1, (f c.text).2,
              c.score, c.created_utc⟩]) := by
        simp [sentStepComment, hc]
      rw [hstep]
      show cs.foldlM (sentStepComment (fun t => Except.ok (f t))) _ = _
      rw [ih]
      simp [List.filter_cons, hc]
    | false =>
      have hstep : sentStepComment (fun t => Except.ok (f t)) acc c = Except.ok acc := by
        simp only [sentStepComment, hc, Bool.false_eq_true, if_false]
        rfl
      rw [hstep]
      show cs.foldlM (sentStepComment (fun t => Except.ok (f t))) _ = _
      rw [ih]
      simp [List.filter_cons, hc]

theorem collect_sentiments_pure (f : String → ℚ × ℚ)
    (posts_data : List PostItem) (comments_data : List CommentItem) :
    collect_sentiments (fun t => Except.ok (f t)) posts_data comments_data
      = Except.ok
          ((posts_data.filter (fun post =>
              pyStrip (post.title ++ " " ++ post.text) != "")).map
            (fun post => ⟨ContentType.post, (f (post.title ++ " " ++ post.text)).1,
              (f (post.title ++ " " ++ post.text)).2, post.score, post.created_utc⟩)
          ++ (comments_data.filter (fun comment =>
               pyStrip comment.text != "" && comment.text != "[deleted]")).map
            (fun comment => ⟨ContentType.comment, (f comment.text).1, (f comment.text).2,
              comment.score, comment.created_utc⟩)) := by
  unfold collect_sentiments
  rw [foldlM_sentStepPost_pure]
  show comments_data.foldlM (sentStepComment (fun t => Except.ok (f t))) _ = _
  rw [foldlM_sentStepComment_pure]
  simp


-- ===== keyword token lemmas =====

theorem splitWsAux_chars (Q : Char → Prop) :
    ∀ (cs cur : List Char), (∀ c ∈ cur, Q c) →
      (∀ c ∈ cs, c.isWhitespace = false → Q c) →
      ∀ t ∈ splitWsAux cur cs, ∀ c ∈ t, Q c := by
  intro cs
  induction cs with
  | nil =>
    intro cur hcur _ t ht c hc
    cases hemp : cur.isEmpty with
    | true => simp [splitWsAux, hemp] at ht
    | false =>
      simp only [splitWsAux, hemp] at ht
      simp only [Bool.false_eq_true, if_false, List.mem_singleton] at ht
      subst ht
      exact hcur c (List.mem_reverse.mp hc)
  | cons a as ih =>
    intro cur hcur hcs t ht c hc
    cases hws : a.isWhitespace with
    | true =>
      cases hemp : cur.isEmpty with
      | true =>
        simp only [splitWsAux, hws, if_true, hemp] at ht
        exact ih [] (by simp) (fun c h hw => hcs c (List.mem_cons_of_mem a h) hw) t ht c hc
      | false =>
        simp only [splitWsAux, hws, if_true, hemp, Bool.false_eq_true, if_false,
          List.mem_cons] at ht
        rcases ht with ht | ht
        · subst ht
          exact hcur c (List.mem_reverse.mp hc)
        · exact ih [] (by simp) (fun c h hw => hcs c (List.mem_cons_of_mem a h) hw) t ht c hc
    | false =>
      simp only [splitWsAux, hws, Bool.false_eq_true, if_false] at ht
      refine ih (a :: cur) ?_ (fun c h hw => hcs c (List.mem_cons_of_mem a h) hw) t ht c hc
      intro c hcmem
      rcases List.mem_cons.mp hcmem with h | h
      · rw [h]
        exact hcs a (List.mem_cons_self a as) hws
      · exact hcur c h

theorem char_ofNat_lower_ne_apos (m : Nat) (h1 : 97 ≤ m) (h2 : m ≤ 122) :
    Char.ofNat m ≠ Char.ofNat 39 := by
  interval_cases m <;> decide

theorem toLower_ne_apos (d : Char) (h : keepAlphaWs d = true) :
    Char.toLower d ≠ Char.ofNat 39 := by
  have hdef : Char.toLower d =
      if d.toNat ≥ 65 ∧ d.toNat ≤ 90 then Char.ofNat (d.toNat + 32) else d := rfl
  rw [hdef]
  by_cases hr : d.toNat ≥ 65 ∧ d.toNat ≤ 90
  · rw [if_pos hr]
    exact char_ofNat_lower_ne_apos (d.toNat + 32) (by omega) (by omega)
  · rw [if_neg hr]
    intro hcontra
    rw [hcontra] at h
    exact absurd h (by decide)

theorem cleanedTokens_chars (s : String) (t : String) (h : t ∈ cleanedTokens s) :
    ∀ c ∈ t.data, c.isWhitespace = false ∧ c ≠ Char.ofNat 39 := by
  unfold cleanedTokens at h
  obtain ⟨cs, hcs, rfl⟩ := List.mem_map.mp h
  intro c hc
  refine splitWsAux_chars (fun c => c.isWhitespace = false ∧ c ≠ Char.ofNat 39)
    _ [] (by simp) ?_ cs hcs c hc
  intro c hcmem hws
  refine ⟨hws, ?_⟩
  obtain ⟨d, hd, rfl⟩ := List.mem_map.mp hcmem
  exact toLower_ne_apos d (List.mem_filter.mp hd).2

theorem countInsert_keys_subset :
    ∀ (l : List (String × Nat)) (w x : String),
      x ∈ (countInsert l w).map Prod.fst → x ∈ l.map Prod.fst ∨ x = w := by
  intro l
  induction l with
  | nil =>
    intro w x hx
    simp only [countInsert, List.map_cons, List.map_nil, List.mem_singleton] at hx
    exact Or.inr hx
  | cons p rest ih =>
    intro w x hx
    obtain ⟨a, n⟩ := p
    by_cases h : a = w
    · subst h
      rw [show countInsert ((a, n) :: rest) a = (a, n + 1) :: rest from by
        simp [countInsert]] at hx
      simp only [List.map_cons, List.mem_cons] at hx
      rcases hx with hx | hx
      · exact Or.inl (by simp [hx])
      · exact Or.inl (List.mem_cons_of_mem a hx)
    · rw [show countInsert ((a, n) :: rest) w = (a, n) :: countInsert rest w from by
        simp [countInsert, h]] at hx
      simp only [List.map_cons, List.mem_cons] at hx
      rcases hx with hx | hx
      · exact Or.inl (by simp [hx])
      · rcases ih w x hx with h2 | h2
        · exact Or.inl (List.mem_cons_of_mem a h2)
        · exact Or.inr h2

theorem foldl_countInsert_keys :
    ∀ (ws : List String) (acc : List (String × Nat)) (x : String),
      x ∈ (ws.foldl countInsert acc).map Prod.fst → x ∈ acc.map Prod.fst ∨ x ∈ ws := by
  intro ws
  induction ws with
  | nil =>
    intro acc x hx
    exact Or.inl (by simpa using hx)
  | cons w ws ih =>
    intro acc x hx
    simp only [List.foldl_cons] at hx
    rcases ih (countInsert acc w) x hx with h | h
    · rcases countInsert_keys_subset acc w x h with h2 | h2
      · exact Or.inl h2
      · exact Or.inr (by simp [h2])
    · exact Or.inr (List.mem_cons_of_mem w h)

theorem mostCommon_keys_subset (counts : List (String × Nat)) (n : Nat) (x : String)
    (hx : x ∈ (mostCommon counts n).map Prod.fst) : x ∈ counts.map Prod.fst := by
  obtain ⟨p, hp, rfl⟩ := List.mem_map.mp hx
  have hp2 : p ∈ pySorted (fun a b => decide (b.2 ≤ a.2)) counts :=
    List.take_subset n _ hp
  exact List.mem_map.mpr ⟨p, (pySorted_perm _ counts).mem_iff.mp hp2, rfl⟩

theorem extract_keywords_word_mem (comments_data : List CommentItem) (top_n : Nat) (w : String)
    (hw : w ∈ (extract_keywords comments_data top_n).map (fun e => e.word)) :
    w ∈ cleanedTokens (String.intercalate " " (blobParts comments_data)) := by
  unfold extract_keywords at hw
  by_cases h1 : comments_data.isEmpty
  · simp [h1] at hw
  · rw [if_neg h1] at hw
    by_cases h2 : pyStrip (String.intercalate " " (blobParts comments_data)) = ""
    · simp [h2] at hw
    · rw [if_neg h2] at hw
      rw [List.map_map] at hw
      rw [show ((fun e => KeywordEntry.word e) ∘ fun p : String × Nat =>
        (⟨p.1, p.2⟩ : KeywordEntry)) = Prod.fst from rfl] at hw
      have hw3 := mostCommon_keys_subset _ top_n w hw
      rcases foldl_countInsert_keys _ [] w hw3 with h | h
      · simp at h
      · exact List.mem_of_mem_filter h


-- ===== blob membership, character tone, orchestrator =====

theorem blobParts_mem_iff (comments_data : List CommentItem) (c : CommentItem)
    (h : c ∈ comments_data) :
    c.text ∈ blobParts comments_data ↔ (c.text ≠ "" ∧ c.text ≠ "[deleted]") := by
  unfold blobParts
  constructor
  · intro hmem
    obtain ⟨c2, hc2, htext⟩ := List.mem_map.mp hmem
    have hcond := (List.mem_filter.mp hc2).2
    rw [htext] at hcond
    simpa [bne] using hcond
  · rintro ⟨h1, h2⟩
    refine List.mem_map.mpr ⟨c, List.mem_filter.mpr ⟨h, ?_⟩, rfl⟩
    simp [bne, h1, h2]

theorem analyze_character_tone (sa : SentimentSummary)
    (posts_data : List PostItem) (comments_data : List CommentItem) (n : Nat)
    (h1 : sa.total_analyzed = some n) (h2 : n ≠ 0) :
    ∃ prof, analyze_character sa posts_data comments_data = Except.ok prof ∧
      prof.personality_traits.head? =
        some (if sa.overall_polarity > 1/5 then "Optimistic"
          else if sa.overall_polarity < -(1/5) then "Critical" else "Balanced") := by
  unfold analyze_character
  rw [h1]
  simp only [if_neg h2]
  refine ⟨_, rfl, ?_⟩
  by_cases hp : sa.overall_polarity > 1/5
  · rw [if_pos hp, if_pos hp]
    rfl
  · rw [if_neg hp, if_neg hp]
    by_cases hn : sa.overall_polarity < -(1/5)
    · rw [if_pos hn, if_pos hn]
      rfl
    · rw [if_neg hn, if_neg hn]
      rfl

theorem analyze_user_reports_pipeline_failure (caps : Caps) (username : String)
    (c : Int) (m : String)
    (hok : caps.fetchCreated username = Except.ok c)
    (hfail : run_pipeline caps username = Except.error m) :
    analyze_user caps username =
      ⟨false, some ("Failed to analyze user: " ++ m), none⟩ := by
  unfold analyze_user
  rw [hok, hfail]

theorem dateKey_eq_utc_of_shifted (tzOffset ts : Int) :
    dateKey tzOffset ts = utcDateStr (ts + tzOffset) := rfl


-- ===== claim theorems =====

/-- C1: the claim says that whenever the sentiment summary has
`total_analyzed == 0` (in particular whenever zero ScoredItems were produced),
`_analyze_character` returns the degenerate profile.  On the zero-ScoredItems
path the code instead raises `KeyError` for total_analyzed, because the empty
summary dict omits that key, and `analyze_user` turns the exception into a
failure record.  This theorem evaluates the code at the failing input
(no posts, one comment whose body is the deletion marker). -/
theorem c1_zero_scored_keyerror :
    (analyze_sentiment scr0 [] [cdel]).bind (fun sa => analyze_character sa [] [cdel])
        = Except.error (apos ++ "total_analyzed" ++ apos) ∧
    analyze_user capsDel "someone" =
      ⟨false, some ("Failed to analyze user: " ++ (apos ++ "total_analyzed" ++ apos)), none⟩ := by
  constructor
  · decide
  · decide

/-- C2: the claim says the zero-ScoredItems summary has all numeric fields
zero, an empty distribution, and `total_analyzed = 0`.  The first two parts
hold, but the dict returned by the zero branch of `_analyze_sentiment` has NO
total_analyzed key at all (modelled as `none`), not the value 0; the
sentiment_summary key is missing as well. -/
theorem c2_zero_scored_summary_shape :
    analyze_sentiment scr0 [] [cdel] = Except.ok ⟨0, 0, 0, 0, 0, [], none, none⟩ := by
  decide

/-- C3 counterexample: the claim says a post whose trimmed combined text equals
the deletion marker, and a comment whose body trims to the marker, are both
skipped.  The code skips neither: with one such post and one such comment,
two ScoredItems are produced instead of zero. -/
theorem c3_counterexample :
    (analyze_sentiment scr0 [pdel] [cpad]).map (fun sa => sa.sentiment_distribution.length)
        = Except.ok 2 ∧
    (analyze_sentiment scr0 [pdel] [cpad]).map (fun sa => sa.total_analyzed)
        = Except.ok (some 2) := by
  constructor
  · decide
  · decide

/-- C3 amended: with a scorer that never raises, the ScoredItems are exactly
the posts whose trimmed title-plus-body is non-empty (no deletion-marker check
for posts), followed by the comments whose trimmed body is non-empty and whose
UNTRIMMED body is not the deletion marker. -/
theorem c3_amended (f : String → ℚ × ℚ)
    (posts_data : List PostItem) (comments_data : List CommentItem) :
    collect_sentiments (fun t => Except.ok (f t)) posts_data comments_data
      = Except.ok
          ((posts_data.filter (fun post =>
              pyStrip (post.title ++ " " ++ post.text) != "")).map
            (fun post => ⟨ContentType.post, (f (post.title ++ " " ++ post.text)).1,
              (f (post.title ++ " " ++ post.text)).2, post.score, post.created_utc⟩)
          ++ (comments_data.filter (fun comment =>
               pyStrip comment.text != "" && comment.text != "[deleted]")).map
            (fun comment => ⟨ContentType.comment, (f comment.text).1, (f comment.text).2,
              comment.score, comment.created_utc⟩)) :=
  collect_sentiments_pure f posts_data comments_data

/-- C4 counterexample: the claim says the timeline date key is the UTC calendar
date of the timestamp, independent of the host timezone.  The code uses
datetime.fromtimestamp, which converts in host local time: at host offset
UTC-1 hour the comment at epoch second 0 is bucketed under 1969-12-31, not
under its UTC date 1970-01-01, and the timeline differs between offsets. -/
theorem c4_counterexample :
    (create_timeline (-3600) [] [chi]).map (fun e => e.date) = ["1969-12-31"] ∧
    utcDateStr chi.created_utc = "1970-01-01" ∧
    (create_timeline (-3600) [] [chi]).map (fun e => e.date)
      ≠ (create_timeline 0 [] [chi]).map (fun e => e.date) := by
  refine ⟨by decide, by decide, by decide⟩

/-- C4 amended: the date key is the calendar date of the instant shifted by the
host UTC offset, i.e. the UTC calendar date of `ts + tzOffset`; it agrees with
the UTC date exactly when the offset is zero, and a single item is bucketed
under that shifted date. -/
theorem c4_amended (tzOffset ts : Int) :
    dateKey tzOffset ts = utcDateStr (ts + tzOffset) ∧
    dateKey 0 ts = utcDateStr ts ∧
    (∀ (c : CommentItem) (tz : Int),
      (create_timeline tz [] [c]).map (fun e => e.date)
        = [utcDateStr (c.created_utc + tz)]) :=
  ⟨dateKey_eq_utc_of_shifted tzOffset ts,
   by rw [dateKey_eq_utc_of_shifted, add_zero],
   fun c tz => rfl⟩

/-- C5 counterexample: the claim says a comment whose body is the deletion
marker padded with whitespace contributes nothing to the keyword ranking.
The per-comment blob filter compares the UNTRIMMED body with the marker, so
the padded comment passes the filter and its cleaned body contributes the
token deleted to the ranking. -/
theorem c5_counterexample :
    extract_keywords [cpad] 10 = [⟨"deleted", 1⟩] ∧
    "deleted" ∈ (extract_keywords [cpad] 10).map (fun e => e.word) := by
  constructor
  · decide
  · decide

/-- C5 amended: a comment body enters the keyword blob exactly when the
untrimmed body is non-empty and the untrimmed body differs from the deletion
marker; in particular the whitespace-padded marker is included and yields the
keyword deleted. -/
theorem c5_amended (comments_data : List CommentItem) (c : CommentItem)
    (h : c ∈ comments_data) :
    (c.text ∈ blobParts comments_data ↔ (c.text ≠ "" ∧ c.text ≠ "[deleted]")) ∧
    extract_keywords [cpad] 10 = [⟨"deleted", 1⟩] :=
  ⟨blobParts_mem_iff comments_data c h, by decide⟩

/-- C5 witness: the amended statement applied to the padded-marker comment. -/
theorem c5_amended_witness :
    cpad ∈ [cpad] ∧
    ((cpad.text ∈ blobParts [cpad] ↔ (cpad.text ≠ "" ∧ cpad.text ≠ "[deleted]")) ∧
      extract_keywords [cpad] 10 = [⟨"deleted", 1⟩]) :=
  ⟨List.mem_singleton.mpr rfl, c5_amended [cpad] cpad (List.mem_singleton.mpr rfl)⟩

/-- C6 counterexample: the claim says overall polarity exactly 0.3 yields the
tone trait Balanced.  The tone threshold in the code is the strict comparison
`polarity > 0.2`, and 0.3 > 0.2, so the pipeline with a scorer returning
polarity 3/10 yields the trait Optimistic, not Balanced. -/
theorem c6_counterexample :
    (analyze_sentiment scr06 [] [chi]).map (fun sa => (sa.overall_polarity, sa.total_analyzed))
        = Except.ok (3/10, some 1) ∧
    ((analyze_sentiment scr06 [] [chi]).bind (fun sa => analyze_character sa [] [chi])).map
        (fun prof => prof.personality_traits.head?) = Except.ok (some "Optimistic") ∧
    some "Optimistic" ≠ some ("Balanced" : String) := by
  refine ⟨by decide, by decide, by decide⟩

/-- C6 amended: for any non-degenerate summary whose overall polarity is
exactly 0.3, the first personality trait is Optimistic (0.3 exceeds the strict
0.2 threshold); the Balanced-at-the-boundary behaviour belongs to polarity
exactly 0.2, not 0.3. -/
theorem c6_amended (sa : SentimentSummary)
    (posts_data : List PostItem) (comments_data : List CommentItem) (n : Nat)
    (h1 : sa.total_analyzed = some n) (h2 : n ≠ 0)
    (h3 : sa.overall_polarity = 3/10) :
    ∃ prof, analyze_character sa posts_data comments_data = Except.ok prof ∧
      prof.personality_traits.head? = some "Optimistic" := by
  obtain ⟨prof, hprof, hhead⟩ := analyze_character_tone sa posts_data comments_data n h1 h2
  refine ⟨prof, hprof, ?_⟩
  rw [hhead, h3]
  rw [if_pos (by norm_num : (3 : ℚ)/10 > 1/5)]

/-- C6 witness: the amended statement applied to a concrete summary with
polarity 3/10. -/
theorem c6_amended_witness :
    sa06.total_analyzed = some 1 ∧ (1 : Nat) ≠ 0 ∧ sa06.overall_polarity = 3/10 ∧
    (∃ prof, analyze_character sa06 [] [chi] = Except.ok prof ∧
      prof.personality_traits.head? = some "Optimistic") :=
  ⟨rfl, by decide, rfl, c6_amended sa06 [] [chi] 1 rfl (by decide) rfl⟩

/-- C7: for every timezone offset and every input, the timeline conserves the
item counts (the per-entry post counts sum to the number of posts and the
per-entry comment counts sum to the number of comments, empty and deleted
items included) and its entries are strictly ascending by date string. -/
theorem c7_timeline_totals_and_sorted (tzOffset : Int) (posts_data : List PostItem)
    (comments_data : List CommentItem) :
    ((create_timeline tzOffset posts_data comments_data).map (fun e => e.posts)).sum
        = posts_data.length ∧
    ((create_timeline tzOffset posts_data comments_data).map (fun e => e.comments)).sum
        = comments_data.length ∧
    (create_timeline tzOffset posts_data comments_data).Pairwise
      (fun e1 e2 => e1.date < e2.date) :=
  create_timeline_spec tzOffset posts_data comments_data

/-- C8: for no posts and the single comment body I love hiking mountains, the
keyword ranking is exactly hiking then mountains, both with count 1: the token
i fails the length filter, love is a stop word, and the count-1 tie is broken
by first appearance. -/
theorem c8_keyword_scenario :
    extract_keywords [chike] 10 = [⟨"hiking", 1⟩, ⟨"mountains", 1⟩] := by
  decide

/-- C9: whenever the user-existence check succeeds and the pipeline afterwards
raises with some message, analyze_user does not propagate the exception: it
returns the failure record whose error message carries the underlying
message. -/
theorem c9_pipeline_failure_reported (caps : Caps) (username : String)
    (c : Int) (m : String)
    (hok : caps.fetchCreated username = Except.ok c)
    (hfail : run_pipeline caps username = Except.error m) :
    analyze_user caps username =
      ⟨false, some ("Failed to analyze user: " ++ m), none⟩ :=
  analyze_user_reports_pipeline_failure caps username c m hok hfail

/-- C9 witness: capabilities whose scorer raises the message boom. -/
theorem c9_pipeline_failure_reported_witness :
    capsBoom.fetchCreated "someone" = Except.ok 0 ∧
    run_pipeline capsBoom "someone" = Except.error "boom" ∧
    analyze_user capsBoom "someone" =
      ⟨false, some ("Failed to analyze user: " ++ "boom"), none⟩ :=
  ⟨rfl, by decide,
   c9_pipeline_failure_reported capsBoom "someone" 0 "boom" rfl (by decide)⟩

/-- C10: every stop-word entry containing an apostrophe or a space can never
match any token, because the cleaning step keeps only letters and whitespace
and tokens are maximal non-whitespace runs; consequently the comment body with
the contraction yields the surviving token dont in the ranking. -/
theorem c10_nonalpha_stopwords_dead :
    (∀ w ∈ stop_words, (Char.ofNat 39 ∈ w.data ∨ (' ' : Char) ∈ w.data) →
      ∀ (comments_data : List CommentItem) (top_n : Nat),
        w ∉ (extract_keywords comments_data top_n).map (fun e => e.word)) ∧
    extract_keywords [cdont] 10 = [⟨"dont", 1⟩] := by
  constructor
  · intro w _ hbad comments_data top_n hmem
    have htok := extract_keywords_word_mem comments_data top_n w hmem
    have hchars := cleanedTokens_chars _ w htok
    rcases hbad with hbad | hbad
    · exact (hchars _ hbad).2 rfl
    · exact absurd (hchars _ hbad).1 (by decide)
  · decide

/-- C10 witness: the stop-word entry no one, which contains a space, never
appears among the keywords of the scenario comment. -/
theorem c10_nonalpha_stopwords_dead_witness :
    "no one" ∈ stop_words ∧ (' ' : Char) ∈ ("no one").data ∧
    "no one" ∉ (extract_keywords [chike] 10).map (fun e => e.word) ∧
    extract_keywords [cdont] 10 = [⟨"dont", 1⟩] :=
  ⟨by decide, by decide,
   c10_nonalpha_stopwords_dead.1 "no one" (by decide) (Or.inr (by decide)) [chike] 10,
   c10_nonalpha_stopwords_dead.2⟩
